import Mathlib

/-!
Verification of the tutoring state machine and session-orchestration engine of
the speech-driven-lessons backend.

Shallow embedding of:
  - backend/models/enums.py      (TutorState, StudentLevel, AssessmentDifficulty)
  - backend/models/session.py    (SessionContext and its methods, TopicProgress)
  - backend/agent/machine.py     (StateTransition, VALID_TRANSITIONS, TutorStateMachine)
  - backend/agent/tutor.py       (ProactiveTutor: input classifier, state handlers,
                                  assessment parsing/grading, level computation)

Modelling conventions:
  - Python floats are modelled as rationals, datetimes as rational timestamps in
    seconds; every call of datetime.utcnow() is the explicit parameter `now`.
  - Python list indices that the code only ever keeps nonnegative are Nat; the
    comparisons `i < len(xs) - 1` and `i >= len(xs) - 1` agree between Python int
    arithmetic and Nat truncated subtraction for nonnegative `i`.
  - The event stream is not modelled: events never feed back into the session
    context, and all claims are about context/state evolution.
  - Each call to the language-model collaborator consumes one element of an
    oracle list of `LLMResult`; the JSON-decoding of the model text performed by
    re.search + json.loads (not embeddable) is abstracted as the oracle field
    `questions_json` describing that decode's outcome.
-/

namespace SpeechLessons

/-- backend/models/enums.py: TutorState (str Enum, 16 values). -/
inductive TutorState
  | idle
  | courseSetup
  | initialAssessment
  | assessmentReview
  | lessonIntroduction
  | conceptExplanation
  | exampleDemonstration
  | guidedPractice
  | checkUnderstanding
  | topicSummary
  | lessonComplete
  | breakSuggestion
  | answeringQuestion
  | handlingConfusion
  | sessionComplete
  | sessionPaused
deriving DecidableEq, Repr

/-- The .value string of each TutorState member. -/
def TutorState.value : TutorState → String
  | .idle => "idle"
  | .courseSetup => "course_setup"
  | .initialAssessment => "initial_assessment"
  | .assessmentReview => "assessment_review"
  | .lessonIntroduction => "lesson_introduction"
  | .conceptExplanation => "concept_explanation"
  | .exampleDemonstration => "example_demonstration"
  | .guidedPractice => "guided_practice"
  | .checkUnderstanding => "check_understanding"
  | .topicSummary => "topic_summary"
  | .lessonComplete => "lesson_complete"
  | .breakSuggestion => "break_suggestion"
  | .answeringQuestion => "answering_question"
  | .handlingConfusion => "handling_confusion"
  | .sessionComplete => "session_complete"
  | .sessionPaused => "session_paused"

/-- The enum constructor TutorState(s): `some` on a valid .value string,
`none` where Python raises ValueError. -/
def TutorState.ofValue (s : String) : Option TutorState :=
  if s = "idle" then some .idle
  else if s = "course_setup" then some .courseSetup
  else if s = "initial_assessment" then some .initialAssessment
  else if s = "assessment_review" then some .assessmentReview
  else if s = "lesson_introduction" then some .lessonIntroduction
  else if s = "concept_explanation" then some .conceptExplanation
  else if s = "example_demonstration" then some .exampleDemonstration
  else if s = "guided_practice" then some .guidedPractice
  else if s = "check_understanding" then some .checkUnderstanding
  else if s = "topic_summary" then some .topicSummary
  else if s = "lesson_complete" then some .lessonComplete
  else if s = "break_suggestion" then some .breakSuggestion
  else if s = "answering_question" then some .answeringQuestion
  else if s = "handling_confusion" then some .handlingConfusion
  else if s = "session_complete" then some .sessionComplete
  else if s = "session_paused" then some .sessionPaused
  else none

/-- backend/models/enums.py: StudentLevel. -/
inductive StudentLevel
  | beginner
  | intermediate
  | advanced
deriving DecidableEq, Repr

/-- The .value string of each StudentLevel member. -/
def StudentLevel.value : StudentLevel → String
  | .beginner => "beginner"
  | .intermediate => "intermediate"
  | .advanced => "advanced"

/-- The enum constructor StudentLevel(s). -/
def StudentLevel.ofValue (s : String) : Option StudentLevel :=
  if s = "beginner" then some .beginner
  else if s = "intermediate" then some .intermediate
  else if s = "advanced" then some .advanced
  else none

/-- backend/models/enums.py: AssessmentDifficulty. -/
inductive AssessmentDifficulty
  | easy
  | medium
  | hard
deriving DecidableEq, Repr

/-- The enum constructor AssessmentDifficulty(s); `none` where Python raises
ValueError (this exception propagates out of _parse_assessment_questions). -/
def AssessmentDifficulty.ofValue (s : String) : Option AssessmentDifficulty :=
  if s = "easy" then some .easy
  else if s = "medium" then some .medium
  else if s = "hard" then some .hard
  else none

/-- One entry of SessionContext.conversation_history (a dict with keys
role, content, timestamp, state in the source). The ISO timestamp string is
modelled by the rational time of its utcnow() call. -/
structure ChatMessage where
  role : String
  content : String
  timestamp : ℚ
  state : String
deriving DecidableEq, Repr

/-- backend/agent/states.py / models: AssessmentQuestion. -/
structure AssessmentQuestion where
  question_text : String
  question_type : String
  options : List String := []
  correct_answer : String := ""
  difficulty : AssessmentDifficulty := .medium
  explanation : String := ""
deriving DecidableEq, Repr

/-- backend/agent/states.py / models: AssessmentResponse. -/
structure AssessmentResponse where
  question_index : Nat
  question_text : String
  question_type : String
  student_answer : String
  correct_answer : String
  is_correct : Bool
  difficulty : AssessmentDifficulty
deriving DecidableEq, Repr

/-- backend/models/session.py: TopicProgress. -/
structure TopicProgress where
  topic_index : Nat
  topic_title : String
  started_at : Option ℚ := none
  completed_at : Option ℚ := none
  concepts_covered : List String := []
  examples_shown : Nat := 0
  practice_problems_attempted : Nat := 0
  practice_problems_correct : Nat := 0
  understanding_checks : Nat := 0
  understanding_passed : Nat := 0
deriving DecidableEq, Repr

/-- A subtopic dict of the course outline: the orchestrator reads only its
"title" key. -/
structure OutlineSubtopic where
  title : String
deriving DecidableEq, Repr

/-- A section dict of the course outline: the orchestrator reads its "title"
and its "subtopics" list (section.get("subtopics", [])). -/
structure OutlineSection where
  title : String
  subtopics : List OutlineSubtopic := []
deriving DecidableEq, Repr

/-- The outline dict: its "sections" list. A Python outline that is None or
lacks the "sections" key is modelled as `none` on the context field. -/
structure CourseOutline where
  sections : List OutlineSection
deriving DecidableEq, Repr

/-- backend/models/session.py: SessionContext (dataclass), with the source's
field defaults. -/
structure SessionContext where
  session_id : String
  user_id : String
  board : String
  subject : String
  chapter : String
  topic : Option String := none
  board_name : String := ""
  subject_name : String := ""
  chapter_name : String := ""
  current_state : TutorState := .idle
  previous_state : Option TutorState := none
  outline : Option CourseOutline := none
  current_section_index : Nat := 0
  current_subtopic_index : Nat := 0
  student_level : StudentLevel := .intermediate
  assessment_questions : List AssessmentQuestion := []
  assessment_responses : List AssessmentResponse := []
  assessment_score : ℚ := 0
  topic_progress : List TopicProgress := []
  concepts_covered : List String := []
  total_time_spent_minutes : ℚ := 0
  session_started_at : Option ℚ := none
  last_activity_at : Option ℚ := none
  current_phase_started_at : Option ℚ := none
  time_since_last_break_minutes : ℚ := 0
  break_threshold_minutes : ℚ := 25
  breaks_taken : Nat := 0
  conversation_history : List ChatMessage := []
  pending_student_question : Option String := none
  is_paused : Bool := false
  student_requested_end : Bool := false
  needs_clarification : Bool := false
  course_id : Option String := none
  embeddings_ready : Bool := false
  orchestrator_session_id : Option String := none
  course_title : String := ""
deriving DecidableEq, Repr

namespace SessionContext

/-- SessionContext.add_message: append to conversation history tagged with the
current state, update last_activity_at. `now` is the utcnow() of the call. -/
def add_message (ctx : SessionContext) (now : ℚ) (role content : String) :
    SessionContext :=
  { ctx with
    conversation_history := ctx.conversation_history ++
      [{ role := role, content := content, timestamp := now,
         state := ctx.current_state.value }],
    last_activity_at := some now }

/-- SessionContext.get_current_topic: the (section, subtopic, section_index,
subtopic_index) at the cursor, or none when no outline is loaded or either
index is out of bounds. -/
def get_current_topic (ctx : SessionContext) :
    Option (OutlineSection × OutlineSubtopic × Nat × Nat) :=
  match ctx.outline with
  | none => none
  | some o =>
    match o.sections.get? ctx.current_section_index with
    | none => none
    | some sec =>
      match sec.subtopics.get? ctx.current_subtopic_index with
      | none => none
      | some sub => some (sec, sub, ctx.current_section_index, ctx.current_subtopic_index)

/-- SessionContext.advance_to_next_topic: advance the subtopic cursor within
the current section, else to the next section's first subtopic, else report
False with no mutation. -/
def advance_to_next_topic (ctx : SessionContext) : Bool × SessionContext :=
  match ctx.outline with
  | none => (false, ctx)
  | some o =>
    if h : ctx.current_section_index < o.sections.length then
      let sec := o.sections.get ⟨ctx.current_section_index, h⟩
      if ctx.current_subtopic_index < sec.subtopics.length - 1 then
        (true, { ctx with current_subtopic_index := ctx.current_subtopic_index + 1 })
      else if ctx.current_section_index < o.sections.length - 1 then
        (true, { ctx with current_section_index := ctx.current_section_index + 1,
                          current_subtopic_index := 0 })
      else (false, ctx)
    else (false, ctx)

/-- SessionContext.is_lesson_complete: true when no outline is loaded, the
section cursor is past the end, or the cursor sits at (or past) the last
subtopic of the last section. -/
def is_lesson_complete (ctx : SessionContext) : Bool :=
  match ctx.outline with
  | none => true
  | some o =>
    if h : ctx.current_section_index < o.sections.length then
      if ctx.current_section_index = o.sections.length - 1 then
        let sec := o.sections.get ⟨ctx.current_section_index, h⟩
        decide (sec.subtopics.length - 1 ≤ ctx.current_subtopic_index)
      else false
    else true

/-- SessionContext.should_suggest_break: elapsed minutes since the last break
have reached the threshold. -/
def should_suggest_break (ctx : SessionContext) : Bool :=
  decide (ctx.break_threshold_minutes ≤ ctx.time_since_last_break_minutes)

/-- SessionContext.update_time_tracking: recompute the two derived elapsed-time
fields from the stored timestamps relative to `now` (seconds / 60). -/
def update_time_tracking (ctx : SessionContext) (now : ℚ) : SessionContext :=
  let ctx1 :=
    match ctx.session_started_at with
    | some s => { ctx with total_time_spent_minutes := (now - s) / 60 }
    | none => ctx
  match ctx1.current_phase_started_at with
  | some p => { ctx1 with time_since_last_break_minutes := (now - p) / 60 }
  | none => ctx1

/-- SessionContext.record_break: count the break, zero the since-break clock,
restart the phase timestamp at now. -/
def record_break (ctx : SessionContext) (now : ℚ) : SessionContext :=
  { ctx with
    breaks_taken := ctx.breaks_taken + 1,
    time_since_last_break_minutes := 0,
    current_phase_started_at := some now }

end SessionContext

/-- The flat dict produced by SessionContext.to_dict, one field per emitted
key. ISO-8601 timestamp strings (or None) are modelled by the underlying
optional rational timestamps. -/
structure SessionSnapshot where
  session_id : String
  user_id : String
  board : String
  subject : String
  chapter : String
  topic : Option String
  board_name : String
  subject_name : String
  chapter_name : String
  current_state : String
  student_level : String
  assessment_score : ℚ
  current_section_index : Nat
  current_subtopic_index : Nat
  concepts_covered : List String
  total_time_spent_minutes : ℚ
  breaks_taken : Nat
  is_paused : Bool
  session_started_at : Option ℚ
  last_activity_at : Option ℚ
deriving DecidableEq, Repr

namespace SessionContext

/-- SessionContext.to_dict: the snapshot dict for storage/API. -/
def to_dict (ctx : SessionContext) : SessionSnapshot :=
  { session_id := ctx.session_id
    user_id := ctx.user_id
    board := ctx.board
    subject := ctx.subject
    chapter := ctx.chapter
    topic := ctx.topic
    board_name := ctx.board_name
    subject_name := ctx.subject_name
    chapter_name := ctx.chapter_name
    current_state := ctx.current_state.value
    student_level := ctx.student_level.value
    assessment_score := ctx.assessment_score
    current_section_index := ctx.current_section_index
    current_subtopic_index := ctx.current_subtopic_index
    concepts_covered := ctx.concepts_covered
    total_time_spent_minutes := ctx.total_time_spent_minutes
    breaks_taken := ctx.breaks_taken
    is_paused := ctx.is_paused
    session_started_at := ctx.session_started_at
    last_activity_at := ctx.last_activity_at }

/-- SessionContext.from_dict: rebuild a context from a snapshot. Only the
identity fields, current_state, student_level, assessment_score, the cursor,
concepts_covered and is_paused are read back; every other field keeps its
dataclass default. `none` models the ValueError of an invalid enum string. -/
def from_dict (data : SessionSnapshot) : Option SessionContext := do
  let st ← TutorState.ofValue data.current_state
  let lvl ← StudentLevel.ofValue data.student_level
  pure
    { session_id := data.session_id
      user_id := data.user_id
      board := data.board
      subject := data.subject
      chapter := data.chapter
      topic := data.topic
      board_name := data.board_name
      subject_name := data.subject_name
      chapter_name := data.chapter_name
      current_state := st
      student_level := lvl
      assessment_score := data.assessment_score
      current_section_index := data.current_section_index
      current_subtopic_index := data.current_subtopic_index
      concepts_covered := data.concepts_covered
      is_paused := data.is_paused }

end SessionContext

/-- backend/agent/machine.py: StateTransition (dataclass). The guard is a pure
predicate over the session context; `trigger` defaults to "auto". -/
structure StateTransition where
  from_state : TutorState
  to_state : TutorState
  condition : Option (SessionContext → Bool) := none
  trigger : String := "auto"

/-- backend/agent/machine.py: VALID_TRANSITIONS, in declaration order. -/
def VALID_TRANSITIONS : List StateTransition := [
  { from_state := .idle, to_state := .courseSetup, trigger := "start" },
  { from_state := .courseSetup, to_state := .initialAssessment, trigger := "auto" },
  { from_state := .initialAssessment, to_state := .assessmentReview, trigger := "complete" },
  { from_state := .assessmentReview, to_state := .lessonIntroduction, trigger := "auto" },
  { from_state := .lessonIntroduction, to_state := .conceptExplanation, trigger := "auto" },
  { from_state := .conceptExplanation, to_state := .exampleDemonstration, trigger := "auto" },
  { from_state := .exampleDemonstration, to_state := .guidedPractice, trigger := "auto" },
  { from_state := .guidedPractice, to_state := .checkUnderstanding, trigger := "complete" },
  { from_state := .checkUnderstanding, to_state := .topicSummary, trigger := "auto" },
  { from_state := .topicSummary, to_state := .lessonIntroduction,
    condition := some (fun ctx => !ctx.is_lesson_complete && !ctx.should_suggest_break),
    trigger := "auto" },
  { from_state := .topicSummary, to_state := .breakSuggestion,
    condition := some (fun ctx => ctx.should_suggest_break && !ctx.is_lesson_complete),
    trigger := "auto" },
  { from_state := .topicSummary, to_state := .lessonComplete,
    condition := some (fun ctx => ctx.is_lesson_complete),
    trigger := "auto" },
  { from_state := .breakSuggestion, to_state := .sessionPaused, trigger := "user_accept" },
  { from_state := .breakSuggestion, to_state := .lessonIntroduction, trigger := "user_decline" },
  { from_state := .sessionPaused, to_state := .lessonIntroduction, trigger := "resume" },
  { from_state := .lessonComplete, to_state := .sessionComplete, trigger := "auto" },
  { from_state := .conceptExplanation, to_state := .answeringQuestion, trigger := "user_question" },
  { from_state := .exampleDemonstration, to_state := .answeringQuestion, trigger := "user_question" },
  { from_state := .guidedPractice, to_state := .answeringQuestion, trigger := "user_question" },
  { from_state := .checkUnderstanding, to_state := .handlingConfusion, trigger := "user_confused" },
  { from_state := .answeringQuestion, to_state := .conceptExplanation, trigger := "return" },
  { from_state := .answeringQuestion, to_state := .exampleDemonstration, trigger := "return" },
  { from_state := .answeringQuestion, to_state := .guidedPractice, trigger := "return" },
  { from_state := .handlingConfusion, to_state := .conceptExplanation, trigger := "return" },
  { from_state := .lessonIntroduction, to_state := .sessionComplete, trigger := "user_end" },
  { from_state := .conceptExplanation, to_state := .sessionComplete, trigger := "user_end" },
  { from_state := .exampleDemonstration, to_state := .sessionComplete, trigger := "user_end" },
  { from_state := .guidedPractice, to_state := .sessionComplete, trigger := "user_end" },
  { from_state := .checkUnderstanding, to_state := .sessionComplete, trigger := "user_end" },
  { from_state := .topicSummary, to_state := .sessionComplete, trigger := "user_end" }
]

/-- Whether a rule's guard passes on the context (a missing guard passes). -/
def condPasses (ctx : SessionContext) (t : StateTransition) : Bool :=
  match t.condition with
  | none => true
  | some c => c ctx

/-- TutorStateMachine._build_transition_map: the bucket of rules for one
from_state, in declaration order (transition_map.get(current, [])). -/
def transitionsFrom (s : TutorState) : List StateTransition :=
  VALID_TRANSITIONS.filter (fun t => t.from_state = s)

namespace TutorStateMachine

/-- The scan of TutorStateMachine.can_transition_to: the first rule whose
to_state matches decides the answer (its guard is returned even when false;
later rules are not consulted). -/
def can_transition_to_scan (ctx : SessionContext) (target : TutorState) :
    List StateTransition → Bool
  | [] => false
  | t :: rest =>
    if t.to_state = target then condPasses ctx t
    else can_transition_to_scan ctx target rest

/-- TutorStateMachine.can_transition_to. -/
def can_transition_to (ctx : SessionContext) (target : TutorState) : Bool :=
  can_transition_to_scan ctx target (transitionsFrom ctx.current_state)

/-- TutorStateMachine.transition_to: on a legal target, set previous_state to
the old current state and current_state to the target and report success;
otherwise report failure (logged, not raised) with the context unchanged. -/
def transition_to (ctx : SessionContext) (target : TutorState) :
    Bool × SessionContext :=
  if can_transition_to ctx target then
    (true, { ctx with previous_state := some ctx.current_state,
                      current_state := target })
  else (false, ctx)

/-- The scan of TutorStateMachine.get_next_auto_state: first "auto" rule whose
guard passes; rules whose guard fails are skipped. -/
def get_next_auto_state_scan (ctx : SessionContext) :
    List StateTransition → Option TutorState
  | [] => none
  | t :: rest =>
    if t.trigger = "auto" && condPasses ctx t then some t.to_state
    else get_next_auto_state_scan ctx rest

/-- TutorStateMachine.get_next_auto_state. -/
def get_next_auto_state (ctx : SessionContext) : Option TutorState :=
  get_next_auto_state_scan ctx (transitionsFrom ctx.current_state)

/-- TutorStateMachine.is_teaching_state: membership of the current state in
the six main-cycle states. -/
def is_teaching_state (ctx : SessionContext) : Bool :=
  [TutorState.lessonIntroduction, TutorState.conceptExplanation,
   TutorState.exampleDemonstration, TutorState.guidedPractice,
   TutorState.checkUnderstanding, TutorState.topicSummary].contains
    ctx.current_state

/-- TutorStateMachine.is_terminal_state. -/
def is_terminal_state (ctx : SessionContext) : Bool :=
  [TutorState.sessionComplete, TutorState.sessionPaused].contains ctx.current_state

/-- TutorStateMachine.is_assessment_state. -/
def is_assessment_state (ctx : SessionContext) : Bool :=
  [TutorState.initialAssessment, TutorState.assessmentReview].contains ctx.current_state

end TutorStateMachine

/-! Python string primitives used by the tutor, implemented over character
lists so that concrete evaluations reduce in the kernel. The classifier's
inputs and keyword tables are ASCII, for which these agree with Python's
str.lower/str.upper/str.strip/in/startswith. -/

/-- ASCII lowering of one character (Python str.lower on ASCII). -/
def pyCharLower (c : Char) : Char :=
  if 65 ≤ c.toNat ∧ c.toNat ≤ 90 then Char.ofNat (c.toNat + 32) else c

/-- ASCII uppering of one character (Python str.upper on ASCII). -/
def pyCharUpper (c : Char) : Char :=
  if 97 ≤ c.toNat ∧ c.toNat ≤ 122 then Char.ofNat (c.toNat - 32) else c

/-- Python str.lower. -/
def pyLower (s : String) : String := ⟨s.data.map pyCharLower⟩

/-- Python str.upper. -/
def pyUpper (s : String) : String := ⟨s.data.map pyCharUpper⟩

/-- The whitespace characters stripped by Python str.strip(). -/
def pySpaceChar (c : Char) : Bool :=
  c = ' ' || c = '\t' || c = '\n' || c = '\r' || c = '\x0b' || c = '\x0c'

/-- Python str.strip(). -/
def pyStrip (s : String) : String :=
  ⟨((s.data.dropWhile pySpaceChar).reverse.dropWhile pySpaceChar).reverse⟩

/-- Character-list prefix test (needle, haystack). -/
def prefixChars : List Char → List Char → Bool
  | [], _ => true
  | _ :: _, [] => false
  | a :: as, b :: bs => a = b && prefixChars as bs

/-- Character-list substring test, scanning left to right. -/
def containsChars (hay needle : List Char) : Bool :=
  match hay with
  | [] => needle.isEmpty
  | _ :: rest => prefixChars needle hay || containsChars rest needle

/-- Python `needle in hay` on strings. -/
def pyIn (needle hay : String) : Bool := containsChars hay.data needle.data

/-- Python hay.startswith(needle). -/
def pyStartsWith (hay needle : String) : Bool := prefixChars needle.data hay.data

namespace ProactiveTutor

/-- ProactiveTutor._classify_input: map raw learner text (plus the current
state and paused flag it reads from the context) to a symbolic intent, first
match wins. -/
def classify_input (state : TutorState) (isPaused : Bool) (user_input : String) :
    String :=
  let lower := pyStrip (pyLower user_input)
  if ["quit", "exit", "end", "stop", "bye"].any (fun w => pyIn w lower) then
    "end_session"
  else if ["break", "pause", "rest"].any (fun w => pyIn w lower) then
    "take_break"
  else if ["resume", "continue", "back", "ready"].any (fun w => pyIn w lower) then
    if isPaused then "resume" else "continue"
  else if ["yes", "yeah", "yep", "ok", "okay", "sure", "next", "go on",
           "ready"].contains lower then
    "ready"
  else if state = .initialAssessment then
    "assessment_answer"
  else if state = .guidedPractice then
    "practice_answer"
  else if pyIn "?" user_input ||
      ["what", "why", "how", "when", "where", "can", "could", "would", "is",
       "are", "do", "does"].any (fun w => pyStartsWith lower w) then
    "question"
  else if ["confused", "don\x27t understand", "don\x27t get", "lost", "unclear",
           "huh", "what do you mean"].any (fun w => pyIn w lower) then
    "confusion"
  else
    "conversation"

end ProactiveTutor

/-- One question dict of the model's JSON, with the .get defaults of
_parse_assessment_questions already applied (question "", type "mcq",
options [], correct "", difficulty "medium", explanation ""). -/
structure QuestionData where
  question : String := ""
  qtype : String := "mcq"
  options : List String := []
  correct : String := ""
  difficulty : String := "medium"
  explanation : String := ""
deriving DecidableEq, Repr

/-- Outcome of the impure front half of _parse_assessment_questions on the
model text: the regex search for a brace-delimited object and json.loads. -/
inductive RawQuestionsJson
  | noObject
  | invalidJson
  | object (questions : List QuestionData)
deriving DecidableEq, Repr

/-- One reply of the language-model collaborator: its text, and the outcome
of decoding that text as assessment-question JSON (abstracted; see module
docstring). -/
structure LLMResult where
  text : String
  questions_json : RawQuestionsJson := .noObject
deriving DecidableEq, Repr

namespace ProactiveTutor

/-- ProactiveTutor._parse_assessment_questions. When the regex finds no JSON
object, or json.loads raises (caught, `pass`), the function returns the empty
list without raising. Building a question calls AssessmentDifficulty(...),
whose ValueError on an unknown difficulty string is NOT caught inside the
parser and propagates (modelled as `.error`). -/
def parse_assessment_questions : RawQuestionsJson →
    Except String (List AssessmentQuestion)
  | .noObject => .ok []
  | .invalidJson => .ok []
  | .object qs =>
    qs.mapM (fun q =>
      match AssessmentDifficulty.ofValue q.difficulty with
      | some d => .ok { question_text := q.question, question_type := q.qtype,
                        options := q.options, correct_answer := q.correct,
                        difficulty := d, explanation := q.explanation }
      | none => .error "ValueError")

/-- ProactiveTutor._check_answer: type-specific answer matching. -/
def check_answer (answer : String) (q : AssessmentQuestion) : Bool :=
  let answer := pyUpper (pyStrip answer)
  let correct := pyUpper (pyStrip q.correct_answer)
  if q.question_type = "mcq" then
    pyStartsWith answer correct || answer = correct
  else if q.question_type = "true_false" then
    let answer_bool := ["TRUE", "T", "YES", "Y"].contains answer
    let correct_bool := ["TRUE", "T", "YES", "Y"].contains correct
    answer_bool = correct_bool
  else
    pyLower answer = pyLower correct

/-- ProactiveTutor._calculate_student_level: ratio of correct responses; the
score is stored as a 0-100 percentage and the level thresholds are 0.8 and
0.5. Returns the context unchanged when there are no responses. -/
def calculate_student_level (ctx : SessionContext) : SessionContext :=
  if ctx.assessment_responses.isEmpty then ctx
  else
    let correct := (ctx.assessment_responses.filter (fun r => r.is_correct)).length
    let total := ctx.assessment_responses.length
    let score : ℚ := if 0 < total then (correct : ℚ) / (total : ℚ) else 0
    let ctx := { ctx with assessment_score := score * 100 }
    if (4 : ℚ)/5 ≤ score then { ctx with student_level := .advanced }
    else if (1 : ℚ)/2 ≤ score then { ctx with student_level := .intermediate }
    else { ctx with student_level := .beginner }

/-- The ProactiveTutor object state outside the session context: the running
assessment cursor and streak counters. -/
structure Agent where
  context : SessionContext
  current_assessment_index : Nat := 0
  consecutive_correct : Nat := 0
  consecutive_wrong : Nat := 0
deriving DecidableEq, Repr

/-- ProactiveTutor._transition_to: delegate to the machine and ignore the
returned flag (the on_state_change callback does not touch the context). -/
def tutor_transition_to (ctx : SessionContext) (target : TutorState) :
    SessionContext :=
  (TutorStateMachine.transition_to ctx target).2

/-- Mutation of the last element of a list, as in topic_progress[-1] guarded
by `if self.context.topic_progress:` (the empty list is left alone). -/
def modifyLast (f : α → α) : List α → List α
  | [] => []
  | [a] => [f a]
  | a :: b :: rest => a :: modifyLast f (b :: rest)

/-- ProactiveTutor._present_assessment_question: append the formatted question
to history (no state change); out-of-range indices do nothing. -/
def present_assessment_question (now : ℚ) (index : Nat) (t : Agent) : Agent :=
  if h : index < t.context.assessment_questions.length then
    let q := t.context.assessment_questions.get ⟨index, h⟩
    let content := "**Question " ++ toString (index + 1) ++ ":** " ++
      q.question_text ++ "\n\n" ++
      (if q.options.isEmpty then "" else String.intercalate "\n" q.options)
    { t with context := t.context.add_message now "assistant" content }
  else t

/-- ProactiveTutor._process_current_state, restricted to its effect on the
agent: dispatch on the current state, run the handler's context mutations and
transition requests, and recurse while a handler requests a further automatic
step. One LLM call consumes one oracle element; `none` means the fuel or the
oracle ran out before the drain reached an input-waiting state. -/
def process_current_state (now : ℚ) :
    Nat → List LLMResult → Agent → Option (Agent × List LLMResult)
  | 0, _, _ => none
  | fuel + 1, llms, t =>
    match t.context.current_state with
    | .courseSetup =>
      match llms with
      | [] => none
      | r :: rest =>
        let ctx := t.context.add_message now "assistant" r.text
        let ctx := tutor_transition_to ctx .initialAssessment
        process_current_state now fuel rest { t with context := ctx }
    | .initialAssessment =>
      match llms with
      | [] => none
      | r :: rest =>
        match parse_assessment_questions r.questions_json with
        | .ok qs =>
          let t := { t with
            context := { t.context with assessment_questions := qs },
            current_assessment_index := 0 }
          if qs.isEmpty then some (t, rest)
          else some (present_assessment_question now 0 t, rest)
        | .error _ =>
          let ctx := tutor_transition_to t.context .lessonIntroduction
          process_current_state now fuel rest { t with context := ctx }
    | .assessmentReview =>
      match llms with
      | [] => none
      | r :: rest =>
        let ctx := t.context.add_message now "assistant" r.text
        let ctx := (ctx.advance_to_next_topic).2
        let ctx := tutor_transition_to ctx .lessonIntroduction
        process_current_state now fuel rest { t with context := ctx }
    | .lessonIntroduction =>
      match t.context.get_current_topic with
      | none =>
        let ctx := tutor_transition_to t.context .lessonComplete
        process_current_state now fuel llms { t with context := ctx }
      | some (_, sub, _, _) =>
        let tp : TopicProgress :=
          { topic_index := t.context.topic_progress.length,
            topic_title := sub.title, started_at := some now }
        let ctx := { t.context with
          topic_progress := t.context.topic_progress ++ [tp] }
        match llms with
        | [] => none
        | r :: rest =>
          let ctx := ctx.add_message now "assistant" r.text
          let ctx := tutor_transition_to ctx .conceptExplanation
          process_current_state now fuel rest { t with context := ctx }
    | .conceptExplanation =>
      match llms with
      | [] => none
      | r :: rest =>
        let ctx := t.context.add_message now "assistant" r.text
        let ctx :=
          match ctx.get_current_topic with
          | some (_, sub, _, _) =>
            { ctx with concepts_covered := ctx.concepts_covered ++ [sub.title] }
          | none => ctx
        let ctx := tutor_transition_to ctx .exampleDemonstration
        process_current_state now fuel rest { t with context := ctx }
    | .exampleDemonstration =>
      match llms with
      | [] => none
      | r :: rest =>
        let ctx := t.context.add_message now "assistant" r.text
        let tp2 := modifyLast
          (fun tp => { tp with examples_shown := tp.examples_shown + 1 })
          ctx.topic_progress
        let ctx := { ctx with topic_progress := tp2 }
        let ctx := tutor_transition_to ctx .guidedPractice
        process_current_state now fuel rest { t with context := ctx }
    | .guidedPractice =>
      match llms with
      | [] => none
      | r :: rest =>
        some ({ t with context := t.context.add_message now "assistant" r.text }, rest)
    | .checkUnderstanding =>
      match llms with
      | [] => none
      | r :: rest =>
        some ({ t with context := t.context.add_message now "assistant" r.text }, rest)
    | .topicSummary =>
      match llms with
      | [] => none
      | r :: rest =>
        let ctx := t.context.add_message now "assistant" r.text
        let tp2 := modifyLast (fun tp => { tp with completed_at := some now })
          ctx.topic_progress
        let ctx := { ctx with topic_progress := tp2 }
        let ctx := ctx.update_time_tracking now
        let ctx :=
          if ctx.is_lesson_complete then tutor_transition_to ctx .lessonComplete
          else if ctx.should_suggest_break then
            tutor_transition_to ctx .breakSuggestion
          else
            tutor_transition_to (ctx.advance_to_next_topic).2 .lessonIntroduction
        process_current_state now fuel rest { t with context := ctx }
    | .answeringQuestion =>
      match llms with
      | [] => none
      | r :: rest =>
        let ctx := t.context.add_message now "assistant" r.text
        some ({ t with context := { ctx with pending_student_question := none } }, rest)
    | .handlingConfusion =>
      match llms with
      | [] => none
      | r :: rest =>
        let ctx := t.context.add_message now "assistant" r.text
        some ({ t with context := { ctx with pending_student_question := none } }, rest)
    | .breakSuggestion =>
      match llms with
      | [] => none
      | r :: rest =>
        some ({ t with context := t.context.add_message now "assistant" r.text }, rest)
    | .lessonComplete =>
      match llms with
      | [] => none
      | r :: rest =>
        let ctx := t.context.add_message now "assistant" r.text
        let ctx := tutor_transition_to ctx .sessionComplete
        process_current_state now fuel rest { t with context := ctx }
    | .sessionComplete =>
      match llms with
      | [] => none
      | r :: rest =>
        some ({ t with context := t.context.add_message now "assistant" r.text }, rest)
    | .idle => some (t, llms)
    | .sessionPaused => some (t, llms)

/-- ProactiveTutor._continue_lesson: follow the first available automatic
transition and drain, or (with none available) emit a neutral utterance with
no context change. -/
def continue_lesson (now : ℚ) (fuel : Nat) (llms : List LLMResult) (t : Agent) :
    Option (Agent × List LLMResult) :=
  match TutorStateMachine.get_next_auto_state t.context with
  | some next =>
    let ctx := tutor_transition_to t.context next
    process_current_state now fuel llms { t with context := ctx }
  | none => some (t, llms)

/-- ProactiveTutor._process_assessment_answer: grade the answer against the
question at the running index, record the response and streaks, then present
the next question or compute the level and move to assessment review. -/
def process_assessment_answer (now : ℚ) (answer : String) (fuel : Nat)
    (llms : List LLMResult) (t : Agent) : Option (Agent × List LLMResult) :=
  if h : t.current_assessment_index < t.context.assessment_questions.length then
    let q := t.context.assessment_questions.get ⟨t.current_assessment_index, h⟩
    let is_correct := check_answer answer q
    let resp : AssessmentResponse :=
      { question_index := t.current_assessment_index,
        question_text := q.question_text, question_type := q.question_type,
        student_answer := answer, correct_answer := q.correct_answer,
        is_correct := is_correct, difficulty := q.difficulty }
    let ctx := { t.context with
      assessment_responses := t.context.assessment_responses ++ [resp] }
    let t : Agent :=
      if is_correct then
        { t with
          context := ctx,
          consecutive_correct := t.consecutive_correct + 1,
          consecutive_wrong := 0 }
      else
        { t with
          context := ctx,
          consecutive_correct := 0,
          consecutive_wrong := t.consecutive_wrong + 1 }
    let t : Agent := { t with
      current_assessment_index := t.current_assessment_index + 1 }
    if t.current_assessment_index < t.context.assessment_questions.length then
      some (present_assessment_question now t.current_assessment_index t, llms)
    else
      let ctx := calculate_student_level t.context
      let ctx := tutor_transition_to ctx .assessmentReview
      process_current_state now fuel llms { t with context := ctx }
  else
    continue_lesson now fuel llms t

/-- ProactiveTutor._process_practice_answer: one LLM evaluation call, progress
counters updated by the "correct"/"right" substring heuristic on the model
feedback, then on to the understanding check. -/
def process_practice_answer (now : ℚ) (fuel : Nat) (llms : List LLMResult)
    (t : Agent) : Option (Agent × List LLMResult) :=
  match llms with
  | [] => none
  | r :: rest =>
    let ctx := t.context.add_message now "assistant" r.text
    let tp2 := modifyLast
      (fun tp =>
        let tp := { tp with
          practice_problems_attempted := tp.practice_problems_attempted + 1 }
        if pyIn "correct" (pyLower r.text) || pyIn "right" (pyLower r.text) then
          { tp with practice_problems_correct := tp.practice_problems_correct + 1 }
        else tp)
      ctx.topic_progress
    let ctx := { ctx with topic_progress := tp2 }
    let ctx := tutor_transition_to ctx .checkUnderstanding
    process_current_state now fuel rest { t with context := ctx }

/-- ProactiveTutor._answer_question: answer a question outside the teaching
flow directly, with no state transition. -/
def answer_question (now : ℚ) (question : String) (llms : List LLMResult)
    (t : Agent) : Option (Agent × List LLMResult) :=
  match llms with
  | [] => none
  | r :: rest =>
    let ctx := { t.context with pending_student_question := some question }
    let ctx := ctx.add_message now "assistant" r.text
    some ({ t with context := ctx }, rest)

/-- ProactiveTutor._process_conversation: free conversation, answered without
a state transition. -/
def process_conversation (now : ℚ) (llms : List LLMResult) (t : Agent) :
    Option (Agent × List LLMResult) :=
  match llms with
  | [] => none
  | r :: rest =>
    some ({ t with context := t.context.add_message now "assistant" r.text }, rest)

/-- ProactiveTutor.process_input: append the learner message, classify it and
dispatch by intent (source lines 85-157). The "question" intent in a teaching
state transitions to answering-question, runs the drain, and then attempts a
return transition only when previous_state is set AND the machine's
is_teaching_state() — which tests the CURRENT state — reports true. -/
def process_input (now : ℚ) (user_input : String) (fuel : Nat)
    (llms : List LLMResult) (t : Agent) : Option (Agent × List LLMResult) :=
  let ctx := t.context.add_message now "user" user_input
  let ctx := { ctx with last_activity_at := some now }
  let t := { t with context := ctx }
  let input_type := classify_input ctx.current_state ctx.is_paused user_input
  if input_type = "question" then
    let ctx := { ctx with pending_student_question := some user_input }
    if TutorStateMachine.is_teaching_state ctx then
      let ctx := tutor_transition_to ctx .answeringQuestion
      match process_current_state now fuel llms { t with context := ctx } with
      | none => none
      | some (t2, rest) =>
        match t2.context.previous_state with
        | some prev =>
          if TutorStateMachine.is_teaching_state t2.context then
            some ({ t2 with context := tutor_transition_to t2.context prev }, rest)
          else some (t2, rest)
        | none => some (t2, rest)
    else
      answer_question now user_input llms { t with context := ctx }
  else if input_type = "confusion" then
    let ctx := { ctx with pending_student_question := some user_input }
    let ctx := tutor_transition_to ctx .handlingConfusion
    process_current_state now fuel llms { t with context := ctx }
  else if input_type = "assessment_answer" then
    process_assessment_answer now user_input fuel llms t
  else if input_type = "practice_answer" then
    process_practice_answer now fuel llms t
  else if input_type = "continue" || input_type = "ready" then
    continue_lesson now fuel llms t
  else if input_type = "end_session" then
    let ctx := { ctx with student_requested_end := true }
    let ctx := tutor_transition_to ctx .sessionComplete
    process_current_state now fuel llms { t with context := ctx }
  else if input_type = "take_break" then
    let ctx := ctx.record_break now
    let ctx := tutor_transition_to ctx .sessionPaused
    some ({ t with context := ctx }, llms)
  else if input_type = "resume" then
    let ctx := tutor_transition_to ctx .lessonIntroduction
    process_current_state now fuel llms { t with context := ctx }
  else
    process_conversation now llms t

/-- The context state at the moment the LLM call raises, for a turn whose
input classifies as free conversation: process_input has already appended the
learner message and stamped last_activity_at (source lines 95-96) before
_process_conversation's _generate_response fails, and those mutations are
retained when the exception propagates to the caller. Valid exactly for the
"conversation" intent (the theorem using it carries that hypothesis). -/
def process_input_conversation_llm_raises (now : ℚ) (user_input : String)
    (t : Agent) : Agent :=
  let ctx := t.context.add_message now "user" user_input
  let ctx := { ctx with last_activity_at := some now }
  { t with context := ctx }

end ProactiveTutor

/-! Concrete fixtures used to instantiate the theorems below. -/

/-- A minimal concrete session context (required identity fields only; every
other field at its dataclass default). -/
def baseContext : SessionContext :=
  { session_id := "s1", user_id := "u1", board := "cbse", subject := "math",
    chapter := "ch1" }

/-- A context whose configurable break threshold is zero. -/
def zeroThresholdContext : SessionContext :=
  { baseContext with break_threshold_minutes := 0 }

/-- A context holding one graded assessment response (answered correctly). -/
def gradedContext : SessionContext :=
  { baseContext with assessment_responses :=
      [{ question_index := 0, question_text := "q1", question_type := "mcq",
         student_answer := "A", correct_answer := "A", is_correct := true,
         difficulty := .medium }] }

/-- An agent whose session sits in the concept-explanation teaching state. -/
def conceptAgent : ProactiveTutor.Agent :=
  { context := { baseContext with current_state := .conceptExplanation } }

/-- An agent whose session sits in lesson-introduction with no outline. -/
def noOutlineLessonAgent : ProactiveTutor.Agent :=
  { context := { baseContext with current_state := .lessonIntroduction } }

/-- An agent whose session sits in the initial-assessment state. -/
def assessmentAgent : ProactiveTutor.Agent :=
  { context := { baseContext with current_state := .initialAssessment } }

/-- An idle agent with an empty conversation history. -/
def idleAgent : ProactiveTutor.Agent := { context := baseContext }

/-! Theorems. -/

/-- C8: the classifier's precedence is fixed. "stop" classifies as
end_session for every state and either value of the paused flag (termination
keywords precede resume detection), and "ready" while paused classifies as
resume, not ready (the resume rule precedes the affirmative-token rule). -/
theorem classifier_precedence_stop_and_ready :
    (∀ (st : TutorState) (p : Bool),
      ProactiveTutor.classify_input st p "stop" = "end_session") ∧
    (∀ st : TutorState, ProactiveTutor.classify_input st true "ready" = "resume") :=
  ⟨fun _ _ => rfl, fun _ => rfl⟩

/-- C5: of the three guarded auto rules out of topic_summary (to
lesson-introduction, break-suggestion, lesson-complete), exactly one guard
passes on every session context. -/
theorem topic_summary_auto_guards_exactly_one (ctx : SessionContext) :
    ((transitionsFrom .topicSummary).filter
      (fun t => t.trigger = "auto")).countP (fun t => condPasses ctx t) = 1 := by
  cases h1 : ctx.is_lesson_complete <;> cases h2 : ctx.should_suggest_break <;>
    simp [transitionsFrom, VALID_TRANSITIONS, condPasses, h1, h2,
      List.countP_cons]

/-- C7: for a non-empty response list with c correct of n total,
_calculate_student_level stores the score as (c/n)*100 and assigns advanced
exactly when c/n is at least 0.8, intermediate exactly when c/n is in
[0.5, 0.8), and beginner exactly when c/n is below 0.5. -/
theorem calculate_student_level_spec (ctx : SessionContext)
    (h : ctx.assessment_responses ≠ []) :
    (ProactiveTutor.calculate_student_level ctx).assessment_score =
      (((ctx.assessment_responses.filter (fun r => r.is_correct)).length : ℚ) /
        (ctx.assessment_responses.length : ℚ)) * 100 ∧
    ((ProactiveTutor.calculate_student_level ctx).student_level = .advanced ↔
      (4 : ℚ)/5 ≤
        ((ctx.assessment_responses.filter (fun r => r.is_correct)).length : ℚ) /
          (ctx.assessment_responses.length : ℚ)) ∧
    ((ProactiveTutor.calculate_student_level ctx).student_level = .intermediate ↔
      ((1 : ℚ)/2 ≤
        ((ctx.assessment_responses.filter (fun r => r.is_correct)).length : ℚ) /
          (ctx.assessment_responses.length : ℚ) ∧
       ((ctx.assessment_responses.filter (fun r => r.is_correct)).length : ℚ) /
          (ctx.assessment_responses.length : ℚ) < (4 : ℚ)/5)) ∧
    ((ProactiveTutor.calculate_student_level ctx).student_level = .beginner ↔
      ((ctx.assessment_responses.filter (fun r => r.is_correct)).length : ℚ) /
        (ctx.assessment_responses.length : ℚ) < (1 : ℚ)/2) := by
  have hne : ctx.assessment_responses.isEmpty = false := by
    simpa [List.isEmpty_iff] using h
  have hn : 0 < ctx.assessment_responses.length := List.length_pos.mpr h
  unfold ProactiveTutor.calculate_student_level
  rw [hne]
  simp only [Bool.false_eq_true, if_false, if_pos hn]
  set score : ℚ :=
    ((ctx.assessment_responses.filter (fun r => r.is_correct)).length : ℚ) /
      (ctx.assessment_responses.length : ℚ) with hscore
  by_cases h1 : (4 : ℚ)/5 ≤ score
  · rw [if_pos h1]
    exact ⟨rfl, iff_of_true rfl h1,
      iff_of_false (by simp) (by rintro ⟨-, hlt⟩; linarith),
      iff_of_false (by simp) (by intro hlt; linarith)⟩
  · rw [if_neg h1]
    by_cases h2 : (1 : ℚ)/2 ≤ score
    · rw [if_pos h2]
      exact ⟨rfl, iff_of_false (by simp) h1,
        iff_of_true rfl ⟨h2, not_le.mp h1⟩,
        iff_of_false (by simp) (by intro hlt; linarith)⟩
    · rw [if_neg h2]
      exact ⟨rfl, iff_of_false (by simp) h1,
        iff_of_false (by simp) (by rintro ⟨hge, -⟩; exact h2 hge),
        iff_of_true rfl (not_le.mp h2)⟩

/-- Witness for C7: with one response, answered correctly, the level is
advanced and the score is 100. -/
theorem calculate_student_level_spec_witness :
    (ProactiveTutor.calculate_student_level gradedContext).assessment_score =
      (((gradedContext.assessment_responses.filter
          (fun r => r.is_correct)).length : ℚ) /
        (gradedContext.assessment_responses.length : ℚ)) * 100 ∧
    ((ProactiveTutor.calculate_student_level gradedContext).student_level =
        .advanced ↔
      (4 : ℚ)/5 ≤
        ((gradedContext.assessment_responses.filter
            (fun r => r.is_correct)).length : ℚ) /
          (gradedContext.assessment_responses.length : ℚ)) ∧
    ((ProactiveTutor.calculate_student_level gradedContext).student_level =
        .intermediate ↔
      ((1 : ℚ)/2 ≤
        ((gradedContext.assessment_responses.filter
            (fun r => r.is_correct)).length : ℚ) /
          (gradedContext.assessment_responses.length : ℚ) ∧
       ((gradedContext.assessment_responses.filter
            (fun r => r.is_correct)).length : ℚ) /
          (gradedContext.assessment_responses.length : ℚ) < (4 : ℚ)/5)) ∧
    ((ProactiveTutor.calculate_student_level gradedContext).student_level =
        .beginner ↔
      ((gradedContext.assessment_responses.filter
          (fun r => r.is_correct)).length : ℚ) /
        (gradedContext.assessment_responses.length : ℚ) < (1 : ℚ)/2) :=
  calculate_student_level_spec gradedContext (by decide)

/-- C9 counterexample: the claim quantifies over every session context, but
with break_threshold_minutes = 0 (a configuration §8 scenario D itself uses)
should_suggest_break() is true immediately after record_break(), because the
reset clock value 0 already reaches the threshold. -/
theorem record_break_zero_threshold_still_suggests :
    ((zeroThresholdContext.record_break 5).should_suggest_break) = true := by
  decide

/-- C9 as amended: for every session context with a positive break threshold,
should_suggest_break() is false immediately after record_break(), and after
update_time_tracking recomputes the since-break clock at time `now` it is
true exactly when the elapsed minutes (now - t0)/60 reach the threshold. -/
theorem record_break_resets_break_suggestion (ctx : SessionContext)
    (t0 now : ℚ) (h : 0 < ctx.break_threshold_minutes) :
    ((ctx.record_break t0).should_suggest_break = false) ∧
    (((ctx.record_break t0).update_time_tracking now).should_suggest_break
        = true ↔
      ctx.break_threshold_minutes ≤ (now - t0) / 60) := by
  constructor
  · simp only [SessionContext.record_break, SessionContext.should_suggest_break,
      decide_eq_false_iff_not]
    exact not_le.mpr h
  · unfold SessionContext.update_time_tracking
    cases hs : ctx.session_started_at <;>
      simp [SessionContext.record_break, SessionContext.should_suggest_break, hs]

/-- Witness for C9: with the default threshold of 25 minutes, a break recorded
at time 0 suppresses the suggestion, and at now = 3600 seconds (60 minutes)
the suggestion is due again. -/
theorem record_break_resets_break_suggestion_witness :
    ((baseContext.record_break 0).should_suggest_break = false) ∧
    (((baseContext.record_break 0).update_time_tracking 3600).should_suggest_break
        = true ↔
      baseContext.break_threshold_minutes ≤ (3600 - 0) / 60) :=
  record_break_resets_break_suggestion baseContext 0 3600 (by norm_num [baseContext])

/-- The enum round trip behind from_dict: TutorState(state.value) = state. -/
theorem tutorState_ofValue_value (s : TutorState) :
    TutorState.ofValue s.value = some s := by
  cases s <;> rfl

/-- The enum round trip behind from_dict: StudentLevel(level.value) = level. -/
theorem studentLevel_ofValue_value (l : StudentLevel) :
    StudentLevel.ofValue l.value = some l := by
  cases l <;> rfl

/-- C10: the snapshot round trip is partial. from_dict(to_dict(ctx)) restores
the identity fields, display names, current_state, student_level,
assessment_score, the curriculum cursor, concepts_covered and is_paused, and
leaves every other field at its dataclass default (in particular
breaks_taken = 0, total_time_spent_minutes = 0 and all three timestamps =
none); meanwhile to_dict does serialize breaks_taken,
total_time_spent_minutes, session_started_at and last_activity_at. -/
theorem to_dict_from_dict_partial_roundtrip (ctx : SessionContext) :
    SessionContext.from_dict ctx.to_dict = some
      { session_id := ctx.session_id, user_id := ctx.user_id,
        board := ctx.board, subject := ctx.subject, chapter := ctx.chapter,
        topic := ctx.topic, board_name := ctx.board_name,
        subject_name := ctx.subject_name, chapter_name := ctx.chapter_name,
        current_state := ctx.current_state,
        student_level := ctx.student_level,
        assessment_score := ctx.assessment_score,
        current_section_index := ctx.current_section_index,
        current_subtopic_index := ctx.current_subtopic_index,
        concepts_covered := ctx.concepts_covered,
        is_paused := ctx.is_paused } ∧
    ctx.to_dict.breaks_taken = ctx.breaks_taken ∧
    ctx.to_dict.total_time_spent_minutes = ctx.total_time_spent_minutes ∧
    ctx.to_dict.session_started_at = ctx.session_started_at ∧
    ctx.to_dict.last_activity_at = ctx.last_activity_at := by
  refine ⟨?_, rfl, rfl, rfl, rfl⟩
  simp [SessionContext.from_dict, SessionContext.to_dict,
    tutorState_ofValue_value, studentLevel_ofValue_value]

/-- C6 counterexample: a turn whose input classifies as free conversation and
whose LLM call raises does NOT leave the context in its pre-turn state — the
learner message was appended to conversation history (source line 95) before
the failing call. -/
theorem llm_failure_not_transactional :
    ProactiveTutor.classify_input idleAgent.context.current_state
        idleAgent.context.is_paused "hello" = "conversation" ∧
    (ProactiveTutor.process_input_conversation_llm_raises 0 "hello"
        idleAgent).context.conversation_history ≠
      idleAgent.context.conversation_history := by
  exact ⟨rfl, by decide⟩

/-- C6 as amended: when the LLM call of a free-conversation turn raises, the
mutations committed before the call persist — the learner message is appended
to the history and last_activity_at is stamped — while the state-machine
fields and flags are untouched; a retried turn therefore re-appends the
message rather than resuming from the pre-turn context. -/
theorem llm_failure_mutations_before_call_persist (now : ℚ)
    (user_input : String) (t : ProactiveTutor.Agent)
    (_h : ProactiveTutor.classify_input t.context.current_state
      t.context.is_paused user_input = "conversation") :
    (ProactiveTutor.process_input_conversation_llm_raises now user_input
        t).context.conversation_history =
      t.context.conversation_history ++
        [{ role := "user", content := user_input, timestamp := now,
           state := t.context.current_state.value }] ∧
    (ProactiveTutor.process_input_conversation_llm_raises now user_input
        t).context.last_activity_at = some now ∧
    (ProactiveTutor.process_input_conversation_llm_raises now user_input
        t).context.current_state = t.context.current_state ∧
    (ProactiveTutor.process_input_conversation_llm_raises now user_input
        t).context.previous_state = t.context.previous_state ∧
    (ProactiveTutor.process_input_conversation_llm_raises now user_input
        t).context.is_paused = t.context.is_paused ∧
    (ProactiveTutor.process_input_conversation_llm_raises now user_input
        t).context.student_requested_end = t.context.student_requested_end ∧
    (ProactiveTutor.process_input_conversation_llm_raises now user_input
        t).context.pending_student_question =
      t.context.pending_student_question :=
  ⟨rfl, rfl, rfl, rfl, rfl, rfl, rfl⟩

/-- Witness for C6's amended theorem at the concrete failing turn. -/
theorem llm_failure_mutations_before_call_persist_witness :
    (ProactiveTutor.process_input_conversation_llm_raises 0 "hello"
        idleAgent).context.conversation_history =
      idleAgent.context.conversation_history ++
        [{ role := "user", content := "hello", timestamp := 0,
           state := idleAgent.context.current_state.value }] ∧
    (ProactiveTutor.process_input_conversation_llm_raises 0 "hello"
        idleAgent).context.last_activity_at = some 0 ∧
    (ProactiveTutor.process_input_conversation_llm_raises 0 "hello"
        idleAgent).context.current_state = idleAgent.context.current_state ∧
    (ProactiveTutor.process_input_conversation_llm_raises 0 "hello"
        idleAgent).context.previous_state = idleAgent.context.previous_state ∧
    (ProactiveTutor.process_input_conversation_llm_raises 0 "hello"
        idleAgent).context.is_paused = idleAgent.context.is_paused ∧
    (ProactiveTutor.process_input_conversation_llm_raises 0 "hello"
        idleAgent).context.student_requested_end =
      idleAgent.context.student_requested_end ∧
    (ProactiveTutor.process_input_conversation_llm_raises 0 "hello"
        idleAgent).context.pending_student_question =
      idleAgent.context.pending_student_question :=
  llm_failure_mutations_before_call_persist 0 "hello" idleAgent (by decide)

/-- In the transition table, no two rules out of the same state share a
target, so the first-match scan of can_transition_to coincides with an
existential search. -/
theorem transitionsFrom_to_state_nodup (s : TutorState) :
    ((transitionsFrom s).map (fun t => t.to_state)).Nodup := by
  cases s <;> decide

/-- The first-match scan returns true iff some listed rule targets `target`
with a passing guard, provided no two listed rules share a target. -/
theorem can_transition_to_scan_eq_true_iff (ctx : SessionContext)
    (target : TutorState) (ts : List StateTransition)
    (hnd : (ts.map (fun t => t.to_state)).Nodup) :
    TutorStateMachine.can_transition_to_scan ctx target ts = true ↔
      ∃ t ∈ ts, t.to_state = target ∧ condPasses ctx t = true := by
  induction ts with
  | nil => simp [TutorStateMachine.can_transition_to_scan]
  | cons a rest ih =>
    rw [List.map_cons, List.nodup_cons] at hnd
    obtain ⟨hnotin, hrest⟩ := hnd
    show (if a.to_state = target then condPasses ctx a
      else TutorStateMachine.can_transition_to_scan ctx target rest) = true ↔ _
    by_cases hat : a.to_state = target
    · rw [if_pos hat]
      constructor
      · intro hc
        exact ⟨a, List.mem_cons_self a rest, hat, hc⟩
      · rintro ⟨t, htmem, hteq, hc⟩
        rcases List.mem_cons.mp htmem with rfl | hmem
        · exact hc
        · exfalso
          apply hnotin
          rw [hat, ← hteq]
          exact List.mem_map_of_mem (fun t => t.to_state) hmem
    · rw [if_neg hat, ih hrest]
      constructor
      · rintro ⟨t, htmem, hteq, hc⟩
        exact ⟨t, List.mem_cons_of_mem a htmem, hteq, hc⟩
      · rintro ⟨t, htmem, hteq, hc⟩
        rcases List.mem_cons.mp htmem with rfl | hmem
        · exact absurd hteq hat
        · exact ⟨t, hmem, hteq, hc⟩

/-- can_transition_to ctx target holds iff some rule of VALID_TRANSITIONS
from the current state to the target has a passing (or absent) guard. -/
theorem can_transition_to_iff (ctx : SessionContext) (target : TutorState) :
    TutorStateMachine.can_transition_to ctx target = true ↔
      ∃ t ∈ VALID_TRANSITIONS, t.from_state = ctx.current_state ∧
        t.to_state = target ∧ condPasses ctx t = true := by
  rw [TutorStateMachine.can_transition_to,
    can_transition_to_scan_eq_true_iff ctx target _
      (transitionsFrom_to_state_nodup ctx.current_state)]
  unfold transitionsFrom
  constructor
  · rintro ⟨t, htmem, hteq, hc⟩
    rw [List.mem_filter] at htmem
    exact ⟨t, htmem.1, by simpa using htmem.2, hteq, hc⟩
  · rintro ⟨t, htmem, hfrom, hteq, hc⟩
    exact ⟨t, List.mem_filter.mpr ⟨htmem, by simp [hfrom]⟩, hteq, hc⟩

/-- C4: transition_to returns success exactly when some rule of the table
from the current state to the target has no guard or a guard that passes on
the context; on success the returned context sets previous_state to the old
current state and current_state to the target, and on failure it is the
unchanged input context (reported, not raised). -/
theorem transition_to_contract (ctx : SessionContext) (target : TutorState) :
    ((TutorStateMachine.transition_to ctx target).1 = true ↔
      ∃ t ∈ VALID_TRANSITIONS, t.from_state = ctx.current_state ∧
        t.to_state = target ∧ condPasses ctx t = true) ∧
    TutorStateMachine.transition_to ctx target =
      (TutorStateMachine.can_transition_to ctx target,
       if TutorStateMachine.can_transition_to ctx target then
         { ctx with previous_state := some ctx.current_state,
                    current_state := target }
       else ctx) := by
  constructor
  · rw [← can_transition_to_iff]
    unfold TutorStateMachine.transition_to
    by_cases hc : TutorStateMachine.can_transition_to ctx target <;> simp [hc]
  · unfold TutorStateMachine.transition_to
    by_cases hc : TutorStateMachine.can_transition_to ctx target <;> simp [hc]

/-- Witness for C4 at a concrete input: from the idle base context the start
rule makes course-setup reachable. -/
theorem transition_to_contract_witness :
    ((TutorStateMachine.transition_to baseContext .courseSetup).1 = true ↔
      ∃ t ∈ VALID_TRANSITIONS, t.from_state = baseContext.current_state ∧
        t.to_state = .courseSetup ∧ condPasses baseContext t = true) ∧
    TutorStateMachine.transition_to baseContext .courseSetup =
      (TutorStateMachine.can_transition_to baseContext .courseSetup,
       if TutorStateMachine.can_transition_to baseContext .courseSetup then
         { baseContext with previous_state := some baseContext.current_state,
                            current_state := .courseSetup }
       else baseContext) :=
  transition_to_contract baseContext .courseSetup

/-- The transition table has no rule from lesson_introduction to
lesson_complete, so the fallback transition requested by
_do_lesson_introduction when no topic is available can never fire. -/
theorem no_rule_lesson_intro_to_lesson_complete (ctx : SessionContext)
    (h : ctx.current_state = .lessonIntroduction) :
    TutorStateMachine.can_transition_to ctx .lessonComplete = false := by
  unfold TutorStateMachine.can_transition_to
  rw [h]
  rfl

/-- C1: evaluating process_input at the failing turn. From concept-explanation
an input classified as question transitions to answering-question and runs its
behavior, but the return guard tests machine.is_teaching_state() — i.e. the
CURRENT state, which is answering_question — so the session is left in
answering_question instead of returning to the prior teaching state
(previous_state still records concept_explanation). -/
theorem question_turn_stays_in_answering_question :
    (ProactiveTutor.process_input 0 "why does this work?" 3
        [{ text := "because the slope is constant" }] conceptAgent).map
      (fun p => (p.1.context.current_state, p.1.context.previous_state)) =
      some (TutorState.answeringQuestion, some TutorState.conceptExplanation) := by
  decide

/-- C2: with no curriculum outline loaded, processing the lesson-introduction
state never terminates: _do_lesson_introduction finds no current topic,
requests an (illegal, hence ignored) transition to lesson_complete, and
re-processes the unchanged lesson_introduction state, for every fuel bound
and every LLM oracle. -/
theorem lesson_introduction_without_outline_diverges (now : ℚ) (fuel : Nat)
    (llms : List LLMResult) (t : ProactiveTutor.Agent)
    (hout : t.context.outline = none)
    (hst : t.context.current_state = .lessonIntroduction) :
    ProactiveTutor.process_current_state now fuel llms t = none := by
  induction fuel generalizing llms t with
  | zero => rfl
  | succ n ih =>
    have htopic : t.context.get_current_topic = none := by
      unfold SessionContext.get_current_topic
      rw [hout]
    have htrans : ProactiveTutor.tutor_transition_to t.context .lessonComplete
        = t.context := by
      unfold ProactiveTutor.tutor_transition_to TutorStateMachine.transition_to
      rw [no_rule_lesson_intro_to_lesson_complete t.context hst]
      rfl
    simp only [ProactiveTutor.process_current_state, hst, htopic, htrans]
    exact ih llms t hout hst

/-- Witness for C2: a concrete no-outline session in lesson-introduction,
processed with fuel 6 and an empty oracle, reaches no input-waiting state. -/
theorem lesson_introduction_without_outline_diverges_witness :
    ProactiveTutor.process_current_state 0 6 [] noOutlineLessonAgent = none :=
  lesson_introduction_without_outline_diverges 0 6 [] noOutlineLessonAgent
    (by decide) (by decide)

/-- C3: assessment parse failure does not lead to lesson_introduction.
_parse_assessment_questions returns the empty list WITHOUT raising when the
regex finds no JSON object or json.loads fails, so _do_initial_assessment's
except-branch (the only path that requests the skip) is not taken and the
session stays in initial_assessment with no questions; moreover the table has
no rule initial_assessment -> lesson_introduction, so even the except-branch
transition request could never fire. -/
theorem assessment_parse_failure_stays_in_initial_assessment :
    (ProactiveTutor.parse_assessment_questions .noObject = Except.ok []) ∧
    (ProactiveTutor.parse_assessment_questions .invalidJson = Except.ok []) ∧
    (∀ ctx : SessionContext, ctx.current_state = .initialAssessment →
      TutorStateMachine.can_transition_to ctx .lessonIntroduction = false) ∧
    (∀ (now : ℚ) (fuel : Nat) (r : LLMResult) (rest : List LLMResult)
        (t : ProactiveTutor.Agent),
      t.context.current_state = .initialAssessment →
      ProactiveTutor.parse_assessment_questions r.questions_json =
        Except.ok [] →
      ∃ t2 : ProactiveTutor.Agent,
        ProactiveTutor.process_current_state now (fuel + 1) (r :: rest) t =
          some (t2, rest) ∧
        t2.context.current_state = .initialAssessment ∧
        t2.context.assessment_questions = []) := by
  refine ⟨rfl, rfl, ?_, ?_⟩
  · intro ctx h
    unfold TutorStateMachine.can_transition_to
    rw [h]
    rfl
  · intro now fuel r rest t hst hparse
    refine ⟨{ t with
      context := { t.context with assessment_questions := [] },
      current_assessment_index := 0 }, ?_, ?_, rfl⟩
    · simp only [ProactiveTutor.process_current_state, hst, hparse,
        List.isEmpty_nil, if_pos]
    · exact hst

/-- Witness for C3: a concrete initial-assessment session fed a model reply
with no extractable JSON stays in initial_assessment with no questions. -/
theorem assessment_parse_failure_stays_witness :
    ∃ t2 : ProactiveTutor.Agent,
      ProactiveTutor.process_current_state 0 (2 + 1)
          [{ text := "sure, here are some questions" }] assessmentAgent =
        some (t2, []) ∧
      t2.context.current_state = .initialAssessment ∧
      t2.context.assessment_questions = [] :=
  assessment_parse_failure_stays_in_initial_assessment.2.2.2 0 2
    { text := "sure, here are some questions" } [] assessmentAgent
    (by decide) (by rfl)

end SpeechLessons
